import Mathlib

/-!
Verification of the star-catalogue parser and projector of `firmament`
(`src/main.rs`), shallowly embedded in Lean.

Modelling conventions:
* a text line is a `List Char` (the catalogue is ASCII, so bytes and
  characters coincide);
* Rust's `str::get(a..b)` is `strGet`, returning `none` out of bounds;
* `i8`/`i64` parsing (`str::parse`) is `parse_i8` / `parse_i64`:
  optional sign, then digits, with the integer-width range check;
* `f32` parsing is `parse_f32`, following Rust's decimal-literal grammar
  (optional sign, digits with optional fraction part, optional exponent);
  values are exact rationals, not rounded floats, and the special forms
  `inf` / `NaN` are not modelled (they cannot occur in the catalogue);
* a Rust `panic!` / `unwrap` failure is `Except.error` with a `Panic`
  value; `parse_catalogue_line` hence returns `Except Panic (Option Star)`
  where `.ok none` is the silent-skip path;
* `f32` arithmetic in the projector is exact rational / real arithmetic.
-/

namespace Firmament

/-- Spectral classes, from `enum SpecType` in `src/main.rs`. -/
inductive SpecType
  | O | B | A | F | G | K | M
deriving DecidableEq, Repr

/-- A star record, from `struct Star` in `src/main.rs`.  The `i8`/`i64`
fields are modelled as `Int` (their parsers enforce the machine ranges);
the `f32` fields as exact `ℚ`. -/
structure Star where
  hd_num : Int
  ra_hours : Int
  ra_mins : Int
  ra_seconds : ℚ
  dec_deg : Int
  dec_mins : Int
  dec_seconds : Int
  visual_mag : ℚ
  spec_type : SpecType
deriving DecidableEq, Repr

/-- A catalogue line: a list of (ASCII) characters. -/
abbrev Line := List Char

/-- The substring of `line` at byte range `[a, b)` (unchecked). -/
def slice (line : Line) (a b : Nat) : Line :=
  (line.drop a).take (b - a)

/-- Rust's `str::get(a..b)`: `none` when the range is out of bounds. -/
def strGet (line : Line) (a b : Nat) : Option Line :=
  if a ≤ b ∧ b ≤ line.length then some (slice line a b) else none

/-- Numeric value of a digit string (no sign), most significant first. -/
def digitsToNat (cs : List Char) : Nat :=
  cs.foldl (fun n c => 10 * n + (c.toNat - 48)) 0

/-- Rust's integer `FromStr`: optional `+`/`-` sign followed by at least
one digit, nothing else. Returns the signed value, no width check. -/
def parseIntCore (cs : List Char) : Option Int :=
  match cs with
  | [] => none
  | '+' :: rest =>
      if rest ≠ [] ∧ rest.all Char.isDigit then some (digitsToNat rest) else none
  | '-' :: rest =>
      if rest ≠ [] ∧ rest.all Char.isDigit then some (-(digitsToNat rest : Int)) else none
  | _ =>
      if cs.all Char.isDigit then some (digitsToNat cs) else none

/-- Rust `str::parse::<i8>()`: integer syntax plus the `i8` range check. -/
def parse_i8 (cs : List Char) : Option Int :=
  (parseIntCore cs).bind fun n => if -128 ≤ n ∧ n ≤ 127 then some n else none

/-- Rust `str::parse::<i64>()`: integer syntax plus the `i64` range check. -/
def parse_i64 (cs : List Char) : Option Int :=
  (parseIntCore cs).bind fun n =>
    if -(2 ^ 63) ≤ n ∧ n ≤ 2 ^ 63 - 1 then some n else none

/-- Split a character list at the first `e`/`E` (exponent marker). -/
def splitAtExp : List Char → List Char × Option (List Char)
  | [] => ([], none)
  | c :: rest =>
      if c = 'e' ∨ c = 'E' then ([], some rest)
      else
        let p := splitAtExp rest
        (c :: p.1, p.2)

/-- The mantissa of a decimal literal: digits with an optional single
`.`, at least one digit overall (`1`, `1.`, `1.5`, `.5`). -/
def parseMantissa (cs : List Char) : Option ℚ :=
  match cs.splitOn '.' with
  | [w] =>
      if w ≠ [] ∧ w.all Char.isDigit then some (digitsToNat w : ℚ) else none
  | [w, f] =>
      if w ++ f ≠ [] ∧ w.all Char.isDigit ∧ f.all Char.isDigit then
        some ((digitsToNat w : ℚ) + (digitsToNat f : ℚ) / (10 : ℚ) ^ f.length)
      else none
  | _ => none

/-- The exponent part after `e`/`E`: optional sign, at least one digit. -/
def parseExponent (cs : List Char) : Option Int :=
  match cs with
  | '+' :: rest =>
      if rest ≠ [] ∧ rest.all Char.isDigit then some (digitsToNat rest) else none
  | '-' :: rest =>
      if rest ≠ [] ∧ rest.all Char.isDigit then some (-(digitsToNat rest : Int)) else none
  | _ =>
      if cs ≠ [] ∧ cs.all Char.isDigit then some (digitsToNat cs) else none

/-- Rust `str::parse::<f32>()` on decimal literals: optional sign, mantissa,
optional exponent; the value is kept as an exact rational. -/
def parse_f32 (cs : List Char) : Option ℚ :=
  let sb : ℚ × List Char :=
    match cs with
    | '+' :: rest => (1, rest)
    | '-' :: rest => (-1, rest)
    | _ => (1, cs)
  let p := splitAtExp sb.2
  (parseMantissa p.1).bind fun m =>
    match p.2 with
    | none => some (sb.1 * m)
    | some ecs => (parseExponent ecs).bind fun e => some (sb.1 * m * (10 : ℚ) ^ e)

/-- The distinct `panic!` / `unwrap` abort sites of the parser. -/
inductive Panic
  | unwrapNone
  | unwrapErr
  | unexpectedSpectral
deriving DecidableEq, Repr

/-- Lift an `Option` to `Except`, turning `none` into the given panic:
models calling `.unwrap()` on an `Option`/`Result`. -/
def orPanic {α : Type} (o : Option α) (e : Panic) : Except Panic α :=
  match o with
  | some x => .ok x
  | none => .error e

/-- The `match` on the spectral-type slice `line.get(129..130).unwrap()`
in `parse_catalogue_line` (`src/main.rs` lines 65-80): the seven standard
classes map to themselves, `S`/`N`/`C` to `M`, `W` and `p` to `O`, and
anything else panics (`Unexpected spectral type in bsc5.dat`). -/
def specMatch (cs : Line) : Except Panic SpecType :=
  if cs = ['O'] then .ok .O
  else if cs = ['B'] then .ok .B
  else if cs = ['A'] then .ok .A
  else if cs = ['F'] then .ok .F
  else if cs = ['G'] then .ok .G
  else if cs = ['K'] then .ok .K
  else if cs = ['M'] then .ok .M
  else if cs = ['S'] then .ok .M
  else if cs = ['N'] then .ok .M
  else if cs = ['C'] then .ok .M
  else if cs = ['W'] then .ok .O
  else if cs = ['p'] then .ok .O
  else .error .unexpectedSpectral

/-- The `Some(Star { ... })` branch of `parse_catalogue_line`
(`src/main.rs` lines 56-81), with the struct fields evaluated in source
order; every `unwrap` is a potential panic, except the identifier which
falls back to `0` via `unwrap_or(0)`. -/
def parseStarFields (line : Line) (rah : Int) (vm : ℚ) (dec_sign : Int) :
    Except Panic Star := do
  let idStr ← orPanic (strGet line 25 31) .unwrapNone
  let hd_num := (parse_i64 idStr).getD 0
  let raMinsStr ← orPanic (strGet line 77 79) .unwrapNone
  let ra_mins ← orPanic (parse_i8 raMinsStr) .unwrapErr
  let raSecStr ← orPanic (strGet line 79 83) .unwrapNone
  let ra_seconds ← orPanic (parse_f32 raSecStr) .unwrapErr
  let decDegStr ← orPanic (strGet line 84 86) .unwrapNone
  let dec_deg ← orPanic (parse_i8 decDegStr) .unwrapErr
  let decMinsStr ← orPanic (strGet line 86 88) .unwrapNone
  let dec_mins ← orPanic (parse_i8 decMinsStr) .unwrapErr
  let decSecStr ← orPanic (strGet line 88 90) .unwrapNone
  let dec_seconds ← orPanic (parse_i8 decSecStr) .unwrapErr
  let specStr ← orPanic (strGet line 129 130) .unwrapNone
  let spec_type ← specMatch specStr
  pure { hd_num := hd_num, ra_hours := rah, ra_mins := ra_mins,
         ra_seconds := ra_seconds, dec_deg := dec_deg * dec_sign,
         dec_mins := dec_mins * dec_sign, dec_seconds := dec_seconds * dec_sign,
         visual_mag := vm, spec_type := spec_type }

/-- The function `parse_catalogue_line` (`src/main.rs` lines 49-85): the sign, RA-hours
and visual-magnitude slices are unwrapped up front; if RA-hours or
visual magnitude fails to parse the line is silently dropped
(`.ok none`), otherwise the remaining fields are parsed with panics on
failure. -/
def parse_catalogue_line (line : Line) : Except Panic (Option Star) := do
  let sgn ← orPanic (strGet line 83 84) .unwrapNone
  let dec_sign : Int := if sgn = ['+'] then 1 else -1
  let raStr ← orPanic (strGet line 75 77) .unwrapNone
  let magStr ← orPanic (strGet line 103 107) .unwrapNone
  match parse_i8 raStr, parse_f32 magStr with
  | some rah, some vm => Except.map some (parseStarFields line rah vm dec_sign)
  | _, _ => pure none

/-- The parsing phase of `load_catalogue` (`src/main.rs` line 87):
`contents.lines().filter_map(parse_catalogue_line).collect()`, with a
panic on any line aborting the whole load. -/
def load_catalogue : List Line → Except Panic (List Star)
  | [] => .ok []
  | l :: rest => do
      let r ← parse_catalogue_line l
      let rs ← load_catalogue rest
      match r with
      | some s => .ok (s :: rs)
      | none => .ok rs

/-- The declination sign factor of a line (`src/main.rs` line 51), as a
standalone function of the sign slice `[83,84)`. -/
def decSignOf (line : Line) : Int := if slice line 83 84 = ['+'] then 1 else -1

/-- The star record built in the `Some(Star { .. })` branch, as a
function of the already-parsed field values (used to state the
characterisation of `parseStarFields`). -/
def mkRecord (line : Line) (rah : Int) (vm : ℚ) (ds : Int)
    (ram : Int) (ras : ℚ) (dd dm dsec : Int) (t : SpecType) : Star :=
  { hd_num := (parse_i64 (slice line 25 31)).getD 0, ra_hours := rah,
    ra_mins := ram, ra_seconds := ras, dec_deg := dd * ds,
    dec_mins := dm * ds, dec_seconds := dsec * ds,
    visual_mag := vm, spec_type := t }

/-- The method `Star::equatorial_position_as_radians` (`src/main.rs` lines 32-41):
right ascension and declination in radians, with the declination a
linear rescaling of the sexagesimal triple. `f32` arithmetic is
modelled as exact real arithmetic. -/
noncomputable def Star.equatorial_position_as_radians (s : Star) : ℝ × ℝ :=
  (Real.pi * 2 * ((s.ra_hours : ℝ) / 24 + (s.ra_mins : ℝ) / (60 * 24) +
                  (s.ra_seconds : ℝ) / (3600 * 24)),
   Real.pi * 0.5 * ((s.dec_deg : ℝ) / 90 + (s.dec_mins : ℝ) / (90 * 60) +
                    (s.dec_seconds : ℝ) / (90 * 3600)))

/-- The Cartesian position pushed into `star_data` for one star
(`src/main.rs` lines 146-148): a point on the radius-10 sphere. -/
noncomputable def starVertex (s : Star) : ℝ × ℝ × ℝ :=
  let p := s.equatorial_position_as_radians
  (-10 * Real.sin p.1 * Real.cos p.2,
   10 * Real.sin p.2,
   -10 * Real.cos p.1 * Real.cos p.2)

/-- The brightness computed for one star (`src/main.rs` line 150):
`((6.0 - s.visual_mag)/7.0).max(0.0)`. -/
def brightness (visual_mag : ℚ) : ℚ := max ((6 - visual_mag) / 7) 0

/-- Modelled from the spec's words, for comparison with `brightness`:
`a = clamp((6.0 − visualMagnitude) / 7.0, 0.0, 1.0)`, i.e. clamped to
the interval `[0,1]` on both sides. -/
def spec_brightness (visual_mag : ℚ) : ℚ :=
  min (max ((6 - visual_mag) / 7) 0) 1

/-- The RGB triple pushed into `star_data` for one star
(`src/main.rs` lines 152-161): a fixed lookup on the spectral class,
scaling the brightness `a`. -/
def star_color (t : SpecType) (a : ℚ) : ℚ × ℚ × ℚ :=
  match t with
  | .O => (a, a, a)
  | .B => (a, a, a)
  | .A => (a, a, a)
  | .F => (a, a, a)
  | .G => (a, a, a * (9/10))
  | .K => (a, a * (9/10), a * (3/4))
  | .M => (a, a * (3/4), a * (1/2))

/-! ### Concrete catalogue lines used as test inputs -/

/-- A run of `n` spaces. -/
def spaces (n : Nat) : Line := List.replicate n ' '

/-- A fully valid 130-character catalogue line: identifier 1,
RA 06h00m00.0s, Dec +00°00'00", visual magnitude 1.50, spectral type O. -/
def goodLine : Line :=
  spaces 25 ++ "000001".toList ++ spaces 44 ++ "06".toList ++ "00".toList ++
  "00.0".toList ++ "+".toList ++ "00".toList ++ "00".toList ++ "00".toList ++
  spaces 13 ++ "1.50".toList ++ spaces 22 ++ "O".toList

/-- The star record `goodLine` parses to. -/
def goodStar : Star :=
  { hd_num := 1, ra_hours := 6, ra_mins := 0, ra_seconds := 0, dec_deg := 0,
    dec_mins := 0, dec_seconds := 0, visual_mag := 3/2, spec_type := .O }

/-- Line `goodLine` with the visual-magnitude field `[103,107)` blanked out:
the magnitude fails to parse, so the line is silently dropped. -/
def noMagLine : Line :=
  spaces 25 ++ "000001".toList ++ spaces 44 ++ "06".toList ++ "00".toList ++
  "00.0".toList ++ "+".toList ++ "00".toList ++ "00".toList ++ "00".toList ++
  spaces 13 ++ "    ".toList ++ spaces 22 ++ "O".toList

/-- Line `goodLine` with a non-numeric RA-minutes field `[77,79)`: RA-hours
and magnitude parse, so the bad minutes field is a fatal panic. -/
def badMinsLine : Line :=
  spaces 25 ++ "000001".toList ++ spaces 44 ++ "06".toList ++ "xx".toList ++
  "00.0".toList ++ "+".toList ++ "00".toList ++ "00".toList ++ "00".toList ++
  spaces 13 ++ "1.50".toList ++ spaces 22 ++ "O".toList

/-- Line `goodLine` with an unrecognised spectral-type byte `[129,130)`. -/
def badSpecLine : Line :=
  spaces 25 ++ "000001".toList ++ spaces 44 ++ "06".toList ++ "00".toList ++
  "00.0".toList ++ "+".toList ++ "00".toList ++ "00".toList ++ "00".toList ++
  spaces 13 ++ "1.50".toList ++ spaces 22 ++ "X".toList

/-- Line `goodLine` with a `-` declination sign and nonzero declination
components 01°02'03". -/
def negDecLine : Line :=
  spaces 25 ++ "000001".toList ++ spaces 44 ++ "06".toList ++ "00".toList ++
  "00.0".toList ++ "-".toList ++ "01".toList ++ "02".toList ++ "03".toList ++
  spaces 13 ++ "1.50".toList ++ spaces 22 ++ "O".toList

/-- The star record `negDecLine` parses to: all three declination
components negated. -/
def negDecStar : Star :=
  { hd_num := 1, ra_hours := 6, ra_mins := 0, ra_seconds := 0, dec_deg := -1,
    dec_mins := -2, dec_seconds := -3, visual_mag := 3/2, spec_type := .O }

/-- Line `goodLine` with a non-numeric identifier field `[25,31)`: the
identifier falls back to 0 and the line still parses. -/
def badIdLine : Line :=
  spaces 25 ++ "xxxxxx".toList ++ spaces 44 ++ "06".toList ++ "00".toList ++
  "00.0".toList ++ "+".toList ++ "00".toList ++ "00".toList ++ "00".toList ++
  spaces 13 ++ "1.50".toList ++ spaces 22 ++ "O".toList

/-- The star record `badIdLine` parses to: identifier defaulted to 0. -/
def badIdStar : Star :=
  { hd_num := 0, ra_hours := 6, ra_mins := 0, ra_seconds := 0, dec_deg := 0,
    dec_mins := 0, dec_seconds := 0, visual_mag := 3/2, spec_type := .O }

/-- A line of 107 spaces: long enough for the sign, RA-hours and
magnitude slices to exist, but shorter than 130 characters. -/
def blank107Line : Line := spaces 107

/-! ### Helper lemmas -/

lemma strGet_eq_some (line : Line) (a b : Nat) (h1 : a ≤ b) (h2 : b ≤ line.length) :
    strGet line a b = some (slice line a b) := by
  simp [strGet, h1, h2]

lemma strGet_eq_none (line : Line) (a b : Nat) (h : line.length < b) :
    strGet line a b = none := by
  simp [strGet]
  omega

/-- Characterisation of `parse_catalogue_line` once the three up-front
slices are in bounds: the result is decided by the RA-hours and
visual-magnitude parses. -/
lemma parse_line_eq (line : Line) (h : 107 ≤ line.length) :
    parse_catalogue_line line =
      match parse_i8 (slice line 75 77), parse_f32 (slice line 103 107) with
      | some rah, some vm =>
          Except.map some (parseStarFields line rah vm (decSignOf line))
      | _, _ => .ok none := by
  unfold parse_catalogue_line
  rw [strGet_eq_some line 83 84 (by omega) (by omega),
      strGet_eq_some line 75 77 (by omega) (by omega),
      strGet_eq_some line 103 107 (by omega) (by omega)]
  simp only [orPanic, bind, Except.bind, decSignOf, pure, Except.pure]

/-- Characterisation of `parseStarFields` once the field slices are in
bounds: each remaining parse failure is a panic, in source order, and
on full success the record is `mkRecord`. -/
lemma parseStarFields_eq (line : Line) (rah : Int) (vm : ℚ) (ds : Int)
    (h : 107 ≤ line.length) :
    parseStarFields line rah vm ds =
      match parse_i8 (slice line 77 79) with
      | none => .error .unwrapErr
      | some ram =>
        match parse_f32 (slice line 79 83) with
        | none => .error .unwrapErr
        | some ras =>
          match parse_i8 (slice line 84 86) with
          | none => .error .unwrapErr
          | some dd =>
            match parse_i8 (slice line 86 88) with
            | none => .error .unwrapErr
            | some dm =>
              match parse_i8 (slice line 88 90) with
              | none => .error .unwrapErr
              | some dsec =>
                match strGet line 129 130 with
                | none => .error .unwrapNone
                | some sp =>
                  match specMatch sp with
                  | .error e => .error e
                  | .ok t => .ok (mkRecord line rah vm ds ram ras dd dm dsec t) := by
  unfold parseStarFields
  rw [strGet_eq_some line 25 31 (by omega) (by omega),
      strGet_eq_some line 77 79 (by omega) (by omega),
      strGet_eq_some line 79 83 (by omega) (by omega),
      strGet_eq_some line 84 86 (by omega) (by omega),
      strGet_eq_some line 86 88 (by omega) (by omega),
      strGet_eq_some line 88 90 (by omega) (by omega)]
  simp only [orPanic, bind, Except.bind, pure, Except.pure, mkRecord]
  cases parse_i8 (slice line 77 79)
  case none => rfl
  case some ram =>
  cases parse_f32 (slice line 79 83)
  case none => rfl
  case some ras =>
  cases parse_i8 (slice line 84 86)
  case none => rfl
  case some dd =>
  cases parse_i8 (slice line 86 88)
  case none => rfl
  case some dm =>
  cases parse_i8 (slice line 88 90)
  case none => rfl
  case some dsec =>
  cases strGet line 129 130
  case none => rfl
  case some sp =>
  rcases hs : specMatch sp with e | t <;> simp only [hs]

/-- Any line shorter than 107 characters panics on one of the three
up-front `unwrap`s. -/
lemma parse_short_err (line : Line) (h : line.length < 107) :
    parse_catalogue_line line = .error .unwrapNone := by
  unfold parse_catalogue_line
  by_cases h84 : 84 ≤ line.length
  · rw [strGet_eq_some line 83 84 (by omega) (by omega),
        strGet_eq_some line 75 77 (by omega) (by omega),
        strGet_eq_none line 103 107 (by omega)]
    rfl
  · rw [strGet_eq_none line 83 84 (by omega)]
    rfl

/-- A panicking line anywhere in the input aborts the whole load. -/
lemma load_error_of_mem (lines : List Line) (line : Line) (e : Panic)
    (hmem : line ∈ lines) (herr : parse_catalogue_line line = .error e) :
    ∃ e2, load_catalogue lines = .error e2 := by
  induction lines with
  | nil => cases hmem
  | cons l rest ih =>
    rcases List.mem_cons.mp hmem with rfl | hmem2
    · exact ⟨e, by simp [load_catalogue, herr, bind, Except.bind]⟩
    · rcases hl : parse_catalogue_line l with e3 | r
      · exact ⟨e3, by simp [load_catalogue, hl, bind, Except.bind]⟩
      · obtain ⟨e2, h2⟩ := ih hmem2
        refine ⟨e2, ?_⟩
        simp [load_catalogue, hl, bind, Except.bind, h2]

lemma strGet_some_imp (line : Line) (a b : Nat) (x : Line)
    (h : strGet line a b = some x) : b ≤ line.length ∧ x = slice line a b := by
  unfold strGet at h
  split at h
  · rename_i hc
    exact ⟨hc.2, by simpa using h.symm⟩
  · cases h

/-- If RA-hours or visual magnitude fails to parse (and the up-front
slices exist), the line is silently dropped. -/
lemma parse_skip_of_fail (line : Line) (h : 107 ≤ line.length)
    (hfail : parse_i8 (slice line 75 77) = none ∨
             parse_f32 (slice line 103 107) = none) :
    parse_catalogue_line line = .ok none := by
  rw [parse_line_eq line h]
  rcases hfail with h1 | h1
  · rw [h1]
  · rw [h1]
    cases parse_i8 (slice line 75 77) <;> rfl

/-- Full inversion of a successful parse: every field slice parsed, the
line has at least 130 characters, and the record is `mkRecord`. -/
lemma parse_ok_some_inv (line : Line) (s : Star)
    (h : parse_catalogue_line line = .ok (some s)) :
    130 ≤ line.length ∧ ∃ rah vm ram ras dd dm dsec t,
      parse_i8 (slice line 75 77) = some rah ∧
      parse_f32 (slice line 103 107) = some vm ∧
      parse_i8 (slice line 77 79) = some ram ∧
      parse_f32 (slice line 79 83) = some ras ∧
      parse_i8 (slice line 84 86) = some dd ∧
      parse_i8 (slice line 86 88) = some dm ∧
      parse_i8 (slice line 88 90) = some dsec ∧
      specMatch (slice line 129 130) = .ok t ∧
      s = mkRecord line rah vm (decSignOf line) ram ras dd dm dsec t := by
  by_cases h107 : 107 ≤ line.length
  · rw [parse_line_eq line h107] at h
    split at h
    · rename_i rah vm h1 h2
      rw [parseStarFields_eq line rah vm (decSignOf line) h107] at h
      split at h
      · simp [Except.map] at h
      rename_i ram h3
      split at h
      · simp [Except.map] at h
      rename_i ras h4
      split at h
      · simp [Except.map] at h
      rename_i dd h5
      split at h
      · simp [Except.map] at h
      rename_i dm h6
      split at h
      · simp [Except.map] at h
      rename_i dsec h7
      split at h
      · simp [Except.map] at h
      rename_i sp h8
      split at h
      · simp [Except.map] at h
      rename_i t h9
      obtain ⟨h130, hsp⟩ := strGet_some_imp line 129 130 sp h8
      subst hsp
      simp [Except.map] at h
      exact ⟨h130, rah, vm, ram, ras, dd, dm, dsec, t,
             h1, h2, h3, h4, h5, h6, h7, h9, h.symm⟩
    · rename_i hne
      simp at h
  · rw [parse_short_err line (by omega)] at h
    cases h

/-! ### Claim theorems -/

/-- C1 counterexample: the claim says brightness is clamped to [0,1];
at visual magnitude -8 the code yields 2, the clamped spec value is 1. -/
theorem C1_counterexample : brightness (-8) ≠ spec_brightness (-8) := by
  simp [brightness, spec_brightness]
  norm_num

/-- C1 (amended): brightness is `max ((6 - m)/7) 0` -- clamped below at
0 (magnitude 6 or fainter, e.g. 9, yields 0), equal to 1 at magnitude
-1, but NOT clamped above: any magnitude brighter than -1 exceeds 1. -/
theorem C1_brightness (m : ℚ) :
    brightness m = max ((6 - m) / 7) 0 ∧
    (6 ≤ m → brightness m = 0) ∧
    (m < -1 → 1 < brightness m) ∧
    brightness (-1) = 1 ∧ brightness 9 = 0 := by
  refine ⟨rfl, ?_, ?_, by norm_num [brightness], by norm_num [brightness]⟩
  · intro h
    have : (6 - m) / 7 ≤ 0 := by linarith
    simp [brightness, max_eq_right this]
  · intro h
    have h1 : (1:ℚ) < (6 - m) / 7 := by linarith
    have : brightness m = (6 - m) / 7 := max_eq_left (by linarith)
    rw [this]; exact h1

theorem C1_witness : 1 < brightness (-8) :=
  (C1_brightness (-8)).2.2.1 (by norm_num)

/-- C6: RA in radians is 2pi (h/24 + m/1440 + s/86400) and Dec in
radians is (pi/2)(d/90 + m/5400 + s/324000), a linear rescaling of the
sexagesimal triple. -/
theorem C6_angles (s : Star) :
    (s.equatorial_position_as_radians).1 =
      2 * Real.pi * ((s.ra_hours : ℝ) / 24 + (s.ra_mins : ℝ) / 1440 +
                     (s.ra_seconds : ℝ) / 86400) ∧
    (s.equatorial_position_as_radians).2 =
      (Real.pi / 2) * ((s.dec_deg : ℝ) / 90 + (s.dec_mins : ℝ) / 5400 +
                       (s.dec_seconds : ℝ) / 324000) := by
  constructor <;>
    simp only [Star.equatorial_position_as_radians] <;> ring

/-- C7: the vertex pushed for each star is
(-10 sin RA cos Dec, 10 sin Dec, -10 cos RA cos Dec), and for
RA = 6h0m0s, Dec = +0d0m0s it is exactly (-10, 0, 0). -/
theorem C7_vertex :
    (∀ s : Star, starVertex s =
      (-10 * Real.sin (s.equatorial_position_as_radians).1 *
         Real.cos (s.equatorial_position_as_radians).2,
       10 * Real.sin (s.equatorial_position_as_radians).2,
       -10 * Real.cos (s.equatorial_position_as_radians).1 *
         Real.cos (s.equatorial_position_as_radians).2)) ∧
    (∀ s : Star, s.ra_hours = 6 → s.ra_mins = 0 → s.ra_seconds = 0 →
      s.dec_deg = 0 → s.dec_mins = 0 → s.dec_seconds = 0 →
      starVertex s = (-10, 0, 0)) := by
  constructor
  · intro s; rfl
  · intro s h1 h2 h3 h4 h5 h6
    have hra : (s.equatorial_position_as_radians).1 = Real.pi / 2 := by
      simp [Star.equatorial_position_as_radians, h1, h2, h3]
      ring
    have hdec : (s.equatorial_position_as_radians).2 = 0 := by
      simp [Star.equatorial_position_as_radians, h4, h5, h6]
    simp [starVertex, hra, hdec]

theorem C7_witness : starVertex ⟨0, 6, 0, 0, 0, 0, 0, 0, .O⟩ = (-10, 0, 0) :=
  C7_vertex.2 ⟨0, 6, 0, 0, 0, 0, 0, 0, .O⟩ rfl rfl rfl rfl rfl rfl

/-- C8: the RGB triple is a fixed lookup on the spectral class: O, B,
A, F give (a,a,a); G gives (a,a,0.9a); K gives (a,0.9a,0.75a); M gives
(a,0.75a,0.5a). -/
theorem C8_color (a : ℚ) :
    star_color .O a = (a, a, a) ∧ star_color .B a = (a, a, a) ∧
    star_color .A a = (a, a, a) ∧ star_color .F a = (a, a, a) ∧
    star_color .G a = (a, a, (9/10) * a) ∧
    star_color .K a = (a, (9/10) * a, (3/4) * a) ∧
    star_color .M a = (a, (3/4) * a, (1/2) * a) := by
  refine ⟨rfl, rfl, rfl, rfl, ?_, ?_, ?_⟩ <;> simp [star_color, mul_comm]


set_option maxRecDepth 1000000

/-- When RA-hours and visual magnitude both parse, the line's result is
the field-parsing phase (wrapped in `some`). -/
lemma parse_line_ok_of_some (line : Line) (rah : Int) (vm : ℚ)
    (h : 107 ≤ line.length) (h1 : parse_i8 (slice line 75 77) = some rah)
    (h2 : parse_f32 (slice line 103 107) = some vm) :
    parse_catalogue_line line =
      Except.map some (parseStarFields line rah vm (decSignOf line)) := by
  rw [parse_line_eq line h, h1, h2]

/-- C2: a line whose RA-hours or visual-magnitude field fails to parse
produces no record and no error, the load simply continues; conversely a
record is only produced when both fields parsed. -/
theorem C2_skip :
    (∀ line : Line, 107 ≤ line.length →
       parse_i8 (slice line 75 77) = none ∨
         parse_f32 (slice line 103 107) = none →
       parse_catalogue_line line = .ok none) ∧
    (∀ (line : Line) (s : Star), parse_catalogue_line line = .ok (some s) →
       (parse_i8 (slice line 75 77)).isSome ∧
         (parse_f32 (slice line 103 107)).isSome) ∧
    (∀ (l : Line) (rest : List Line), parse_catalogue_line l = .ok none →
       load_catalogue (l :: rest) = load_catalogue rest) := by
  refine ⟨parse_skip_of_fail, ?_, ?_⟩
  · intro line s h
    obtain ⟨-, rah, vm, -, -, -, -, -, -, h1, h2, -⟩ := parse_ok_some_inv line s h
    simp [h1, h2]
  · intro l rest h
    show Except.bind (parse_catalogue_line l) _ = _
    rw [h]
    show Except.bind (load_catalogue rest) _ = _
    cases load_catalogue rest <;> rfl

theorem C2_witness : parse_catalogue_line noMagLine = .ok none :=
  C2_skip.1 noMagLine (by decide) (Or.inr (by with_unfolding_all rfl))

/-- C10 counterexample: a line of 107 spaces is shorter than 130
characters, yet it is silently skipped, not a fatal abort. -/
theorem C10_counterexample :
    blank107Line.length < 130 ∧ parse_catalogue_line blank107Line = .ok none :=
  ⟨by decide, by with_unfolding_all rfl⟩

/-- C10 (amended): a line shorter than 107 characters always panics on
an up-front `unwrap`; the silent-skip outcome happens exactly when the
three up-front slices exist (length at least 107) and RA-hours or visual
magnitude is non-numeric, even on lines shorter than 130 characters; a
line shorter than 130 characters whose RA-hours and visual magnitude
both parse panics. -/
theorem C10_boundaries :
    (∀ line : Line, line.length < 107 →
       parse_catalogue_line line = .error .unwrapNone) ∧
    (∀ line : Line, parse_catalogue_line line = .ok none ↔
       107 ≤ line.length ∧ (parse_i8 (slice line 75 77) = none ∨
         parse_f32 (slice line 103 107) = none)) ∧
    (∀ (line : Line) (rah : Int) (vm : ℚ), line.length < 130 →
       parse_i8 (slice line 75 77) = some rah →
       parse_f32 (slice line 103 107) = some vm →
       ∃ e, parse_catalogue_line line = .error e) := by
  refine ⟨fun line h => parse_short_err line h, ?_, ?_⟩
  · intro line
    constructor
    · intro h
      by_cases h107 : 107 ≤ line.length
      · refine ⟨h107, ?_⟩
        by_contra hc
        push_neg at hc
        obtain ⟨hra, hmag⟩ := hc
        obtain ⟨rah, h1⟩ := Option.ne_none_iff_exists'.mp hra
        obtain ⟨vm, h2⟩ := Option.ne_none_iff_exists'.mp hmag
        rw [parse_line_ok_of_some line rah vm h107 h1 h2] at h
        cases hps : parseStarFields line rah vm (decSignOf line) <;>
          rw [hps] at h <;> simp [Except.map] at h
      · rw [parse_short_err line (by omega)] at h
        cases h
    · intro ⟨h107, hfail⟩
      exact parse_skip_of_fail line h107 hfail
  · intro line rah vm h130 h1 h2
    by_cases h107 : 107 ≤ line.length
    case neg => exact ⟨.unwrapNone, parse_short_err line (by omega)⟩
    rw [parse_line_ok_of_some line rah vm h107 h1 h2,
        parseStarFields_eq line rah vm (decSignOf line) h107]
    cases parse_i8 (slice line 77 79)
    · exact ⟨.unwrapErr, rfl⟩
    cases parse_f32 (slice line 79 83)
    · exact ⟨.unwrapErr, rfl⟩
    cases parse_i8 (slice line 84 86)
    · exact ⟨.unwrapErr, rfl⟩
    cases parse_i8 (slice line 86 88)
    · exact ⟨.unwrapErr, rfl⟩
    cases parse_i8 (slice line 88 90)
    · exact ⟨.unwrapErr, rfl⟩
    rw [strGet_eq_none line 129 130 (by omega)]
    exact ⟨.unwrapNone, rfl⟩

theorem C10_witness : parse_catalogue_line [] = .error .unwrapNone :=
  C10_boundaries.1 [] (by decide)

/-- C3: the spectral-type byte is mapped by a fixed table -- the seven
standard classes to themselves, S/N/C to M, W and p to O -- and any
other character is a fatal panic; on a line whose other fields parse,
this decides the record's spectral class or aborts the whole load. -/
theorem C3_spectral :
    (specMatch ['O'] = .ok .O ∧ specMatch ['B'] = .ok .B ∧
     specMatch ['A'] = .ok .A ∧ specMatch ['F'] = .ok .F ∧
     specMatch ['G'] = .ok .G ∧ specMatch ['K'] = .ok .K ∧
     specMatch ['M'] = .ok .M ∧ specMatch ['S'] = .ok .M ∧
     specMatch ['N'] = .ok .M ∧ specMatch ['C'] = .ok .M ∧
     specMatch ['W'] = .ok .O ∧ specMatch ['p'] = .ok .O ∧
     (∀ c : Char,
        c ∉ (['O','B','A','F','G','K','M','S','N','C','W','p'] : List Char) →
        specMatch [c] = .error .unexpectedSpectral)) ∧
    (∀ (line : Line) (rah : Int) (vm : ℚ), 130 ≤ line.length →
       parse_i8 (slice line 75 77) = some rah →
       parse_f32 (slice line 103 107) = some vm →
       (parse_i8 (slice line 77 79)).isSome →
       (parse_f32 (slice line 79 83)).isSome →
       (parse_i8 (slice line 84 86)).isSome →
       (parse_i8 (slice line 86 88)).isSome →
       (parse_i8 (slice line 88 90)).isSome →
       ((∀ t, specMatch (slice line 129 130) = .ok t →
           ∃ s, parse_catalogue_line line = .ok (some s) ∧ s.spec_type = t) ∧
        (∀ e, specMatch (slice line 129 130) = .error e →
           parse_catalogue_line line = .error e ∧
           ∀ lines, line ∈ lines → ∃ e2, load_catalogue lines = .error e2))) := by
  constructor
  · refine ⟨by simp [specMatch], by simp [specMatch], by simp [specMatch],
      by simp [specMatch], by simp [specMatch], by simp [specMatch],
      by simp [specMatch], by simp [specMatch], by simp [specMatch],
      by simp [specMatch], by simp [specMatch], by simp [specMatch], ?_⟩
    intro c hc
    simp only [List.mem_cons, List.not_mem_nil, or_false, not_or] at hc
    obtain ⟨hO, hB, hA, hF, hG, hK, hM, hS, hN, hC, hW, hp⟩ := hc
    simp [specMatch, hO, hB, hA, hF, hG, hK, hM, hS, hN, hC, hW, hp]
  · intro line rah vm h130 h1 h2 h3 h4 h5 h6 h7
    obtain ⟨ram, h3⟩ := Option.isSome_iff_exists.mp h3
    obtain ⟨ras, h4⟩ := Option.isSome_iff_exists.mp h4
    obtain ⟨dd, h5⟩ := Option.isSome_iff_exists.mp h5
    obtain ⟨dm, h6⟩ := Option.isSome_iff_exists.mp h6
    obtain ⟨dsec, h7⟩ := Option.isSome_iff_exists.mp h7
    have hline : parse_catalogue_line line =
        match specMatch (slice line 129 130) with
        | .error e => .error e
        | .ok t => .ok (some
            (mkRecord line rah vm (decSignOf line) ram ras dd dm dsec t)) := by
      rw [parse_line_ok_of_some line rah vm (by omega) h1 h2,
          parseStarFields_eq line rah vm (decSignOf line) (by omega),
          h3, h4, h5, h6, h7,
          strGet_eq_some line 129 130 (by omega) (by omega)]
      rcases hq : specMatch (slice line 129 130) with e | t <;>
        simp [Except.map, hq]
    constructor
    · intro t ht
      rw [ht] at hline
      exact ⟨mkRecord line rah vm (decSignOf line) ram ras dd dm dsec t,
             hline, rfl⟩
    · intro e he
      rw [he] at hline
      refine ⟨hline, fun lines hmem => load_error_of_mem lines line e hmem hline⟩

theorem C3_witness : parse_catalogue_line badSpecLine = .error .unexpectedSpectral :=
  ((C3_spectral.2 badSpecLine 6 (3/2) (by decide)
      (by with_unfolding_all rfl) (by with_unfolding_all rfl)
      (by with_unfolding_all rfl) (by with_unfolding_all rfl)
      (by with_unfolding_all rfl) (by with_unfolding_all rfl)
      (by with_unfolding_all rfl)).2 .unexpectedSpectral
      (by with_unfolding_all rfl)).1

/-- C4: once RA-hours and visual magnitude have parsed, a parse failure
on RA-minutes, RA-seconds, or any declination component panics; a panic
on any line aborts the whole load, which then yields no list at all --
concretely, a 3-line catalogue (valid line, magnitude-less line,
bad-minutes line) yields an error, while its first two lines alone
yield the one-record list. -/
theorem C4_fatal :
    (∀ (line : Line) (rah : Int) (vm : ℚ), 107 ≤ line.length →
       parse_i8 (slice line 75 77) = some rah →
       parse_f32 (slice line 103 107) = some vm →
       (parse_i8 (slice line 77 79) = none ∨
        parse_f32 (slice line 79 83) = none ∨
        parse_i8 (slice line 84 86) = none ∨
        parse_i8 (slice line 86 88) = none ∨
        parse_i8 (slice line 88 90) = none) →
       parse_catalogue_line line = .error .unwrapErr) ∧
    (∀ (lines : List Line) (line : Line) (e : Panic), line ∈ lines →
       parse_catalogue_line line = .error e →
       ∃ e2, load_catalogue lines = .error e2) ∧
    load_catalogue [goodLine, noMagLine] = .ok [goodStar] ∧
    load_catalogue [goodLine, noMagLine, badMinsLine] = .error .unwrapErr := by
  refine ⟨?_, load_error_of_mem, by with_unfolding_all rfl, by with_unfolding_all rfl⟩
  intro line rah vm h107 h1 h2 hfail
  rw [parse_line_ok_of_some line rah vm h107 h1 h2,
      parseStarFields_eq line rah vm (decSignOf line) h107]
  rcases hfail with h | h | h | h | h
  · rw [h]; rfl
  · cases parse_i8 (slice line 77 79)
    · rfl
    rw [h]; rfl
  · cases parse_i8 (slice line 77 79)
    · rfl
    cases parse_f32 (slice line 79 83)
    · rfl
    rw [h]; rfl
  · cases parse_i8 (slice line 77 79)
    · rfl
    cases parse_f32 (slice line 79 83)
    · rfl
    cases parse_i8 (slice line 84 86)
    · rfl
    rw [h]; rfl
  · cases parse_i8 (slice line 77 79)
    · rfl
    cases parse_f32 (slice line 79 83)
    · rfl
    cases parse_i8 (slice line 84 86)
    · rfl
    cases parse_i8 (slice line 86 88)
    · rfl
    rw [h]; rfl

theorem C4_witness : parse_catalogue_line badMinsLine = .error .unwrapErr :=
  C4_fatal.1 badMinsLine 6 (3/2) (by decide)
    (by with_unfolding_all rfl) (by with_unfolding_all rfl)
    (Or.inl (by with_unfolding_all rfl))

/-- C5: in every produced record the declination sign character is
applied uniformly: with a `+` sign the three parsed declination
components are kept, with any other character all three are negated. -/
theorem C5_decsign :
    ∀ (line : Line) (s : Star), parse_catalogue_line line = .ok (some s) →
      ∃ d m c, parse_i8 (slice line 84 86) = some d ∧
        parse_i8 (slice line 86 88) = some m ∧
        parse_i8 (slice line 88 90) = some c ∧
        ((slice line 83 84 = ['+'] ∧
            s.dec_deg = d ∧ s.dec_mins = m ∧ s.dec_seconds = c) ∨
         (slice line 83 84 ≠ ['+'] ∧
            s.dec_deg = -d ∧ s.dec_mins = -m ∧ s.dec_seconds = -c)) := by
  intro line s h
  obtain ⟨-, rah, vm, ram, ras, dd, dm, dsec, t,
          -, -, -, -, h5, h6, h7, -, hs⟩ := parse_ok_some_inv line s h
  subst hs
  refine ⟨dd, dm, dsec, h5, h6, h7, ?_⟩
  by_cases hp : slice line 83 84 = ['+']
  · exact Or.inl ⟨hp, by simp [mkRecord, decSignOf, hp]⟩
  · exact Or.inr ⟨hp, by simp [mkRecord, decSignOf, hp]⟩

theorem C5_witness :
    ∃ d m c, parse_i8 (slice negDecLine 84 86) = some d ∧
      parse_i8 (slice negDecLine 86 88) = some m ∧
      parse_i8 (slice negDecLine 88 90) = some c ∧
      ((slice negDecLine 83 84 = ['+'] ∧
          negDecStar.dec_deg = d ∧ negDecStar.dec_mins = m ∧
          negDecStar.dec_seconds = c) ∨
       (slice negDecLine 83 84 ≠ ['+'] ∧
          negDecStar.dec_deg = -d ∧ negDecStar.dec_mins = -m ∧
          negDecStar.dec_seconds = -c)) :=
  C5_decsign negDecLine negDecStar (by with_unfolding_all rfl)

/-- C9: in every produced record, an unparsable identifier field means
the identifier defaulted to 0 (no error); and the identifier is the only
field with a fallback -- every other field of a produced record parsed
successfully. -/
theorem C9_identifier :
    (∀ (line : Line) (s : Star), parse_catalogue_line line = .ok (some s) →
       parse_i64 (slice line 25 31) = none → s.hd_num = 0) ∧
    (∀ (line : Line) (s : Star), parse_catalogue_line line = .ok (some s) →
       (parse_i8 (slice line 75 77)).isSome ∧
       (parse_f32 (slice line 103 107)).isSome ∧
       (parse_i8 (slice line 77 79)).isSome ∧
       (parse_f32 (slice line 79 83)).isSome ∧
       (parse_i8 (slice line 84 86)).isSome ∧
       (parse_i8 (slice line 86 88)).isSome ∧
       (parse_i8 (slice line 88 90)).isSome ∧
       ∃ t, specMatch (slice line 129 130) = .ok t) := by
  constructor
  · intro line s h hid
    obtain ⟨-, rah, vm, ram, ras, dd, dm, dsec, t,
            -, -, -, -, -, -, -, -, hs⟩ := parse_ok_some_inv line s h
    subst hs
    simp [mkRecord, hid]
  · intro line s h
    obtain ⟨-, rah, vm, ram, ras, dd, dm, dsec, t,
            h1, h2, h3, h4, h5, h6, h7, h9, -⟩ := parse_ok_some_inv line s h
    simp [h1, h2, h3, h4, h5, h6, h7]
    exact ⟨t, h9⟩

theorem C9_witness : badIdStar.hd_num = 0 :=
  C9_identifier.1 badIdLine badIdStar (by with_unfolding_all rfl)
    (by with_unfolding_all rfl)

end Firmament
